import Mathlib

/-!
Verification development for the chauffeur identity service.

The Python source wraps a remote identity backend (Firebase Auth).  The
backend itself is external to the repository, so its operations
(`auth.get_user_by_email`, `auth.create_user`, `auth.link_provider_with_uid`,
`auth.get_user`, `auth.create_custom_token`, `auth.send_email_verification`)
are modelled from the specification's `IdentityBackendClient` interface
(spec section 4.2) as explicit state passing over a store of user records.
Every route handler under `src/app` is translated directly from the source:
`get_or_create_firebase_user` and `verify_google_token` from
`src/app/oauth.py` (identical in `src/app/auth/google_oauth.py`),
`signup`, `signin`, `send_verification_email`, `require_verification` and
`verify_token` from `src/app/auth/email_password.py` (identical, up to the
verification-email transport, in `src/app/auth/basic_auth.py` and
`src/app/auth.py`).  Python `HTTPException(status_code, detail)` is modelled
as an explicit error value; external library outcomes (the Google token
library, the Firebase REST endpoint, email dispatch) are inputs to the
functions that consume them, as in the source where they arrive as responses.
-/

namespace Chauffeur

/-- One provider record attached to a user, mirroring the
`provider_data` entries checked in `get_or_create_firebase_user`
(src/app/oauth.py lines 90-93): a `provider_id` and the provider-assigned
subject `uid`. -/
structure ProviderData where
  provider_id : String
  uid : String
deriving DecidableEq, Repr

/-- A Firebase user record as read by the source handlers: `uid`, `email`,
`display_name`, `photo_url`, `email_verified` and the list of linked
provider records. -/
structure UserRecord where
  uid : String
  email : String
  display_name : Option String
  photo_url : Option String
  email_verified : Bool
  provider_data : List ProviderData
deriving DecidableEq, Repr

/-- Modelled from the spec: the remote identity backend's store
(spec section 4.2, `IdentityBackendClient`).  It holds the user records and
a counter from which fresh backend-assigned uids are drawn. -/
structure FirebaseState where
  users : List UserRecord
  nextUid : Nat
deriving DecidableEq, Repr

/-- A Python `HTTPException(status_code=..., detail=...)` as raised by every
handler in `src/app`. -/
structure HTTPError where
  status_code : Nat
  detail : String
deriving DecidableEq, Repr

/-- Process environment as read by `os.getenv` in `src/app/oauth.py` and by
`BaseAuthProvider.get_environment_variable` in `src/app/auth/base.py`:
each variable is either absent or set to a string. -/
structure Env where
  google_oauth_client_id : Option String
  firebase_api_key : Option String
deriving DecidableEq, Repr

/-- Whether the character list `pat` is an initial segment of `l`. -/
def leadsWith : List Char → List Char → Bool
  | [], _ => true
  | _ :: _, [] => false
  | c :: cs, d :: ds => c == d && leadsWith cs ds

/-- Whether the character list `pat` occurs contiguously inside `l`. -/
def occursIn (pat : List Char) : List Char → Bool
  | [] => leadsWith pat []
  | d :: ds => leadsWith pat (d :: ds) || occursIn pat ds

/-- Substring test standing for Python's `in` operator on strings
(`'EMAIL_NOT_FOUND' in error_message`, `"password" in str(e).lower()`):
whether `pat` occurs contiguously in `s`. -/
def strContains (s pat : String) : Bool :=
  occursIn pat.data s.data

/-- Modelled from the spec: `findByEmail` of the identity backend
(spec section 4.2), the behavior of `auth.get_user_by_email`.  Email
equality is exact string match with no normalization (spec section 4.4,
tie-break rule); `none` stands for `UserNotFoundError`. -/
def get_user_by_email (s : FirebaseState) (email : String) : Option UserRecord :=
  s.users.find? (fun u => u.email == email)

/-- Modelled from the spec: account lookup by id, the behavior of
`auth.get_user`; `none` stands for `UserNotFoundError`. -/
def get_user (s : FirebaseState) (uid : String) : Option UserRecord :=
  s.users.find? (fun u => u.uid == uid)

/-- Modelled from the spec: `linkProvider(accountId, providerId,
providerSubject)` of the identity backend (spec sections 3 and 4.2), the
behavior of `auth.link_provider_with_uid`: a new ProviderLink is appended to
the matching account's linked providers. -/
def link_provider_with_uid (s : FirebaseState) (uid provider provider_uid : String) :
    FirebaseState :=
  { s with users := s.users.map (fun u =>
      if u.uid == uid then
        { u with provider_data := u.provider_data ++ [⟨provider, provider_uid⟩] }
      else u) }

/-- Failure domain of the backend's `createAccount` as classified by the
`except` clauses of `signup` (src/app/auth/email_password.py lines 73-79):
`EmailAlreadyExistsError`, or a `ValueError` carrying a message about the
rejected password. -/
inductive CreateUserError where
  | emailAlreadyExists
  | weakPassword (msg : String)
deriving DecidableEq, Repr

/-- The backend-assigned fresh account id. -/
def freshUid (s : FirebaseState) : String :=
  "uid" ++ toString s.nextUid

/-- Modelled from the spec: `createAccount` of the identity backend
(spec section 4.2), the behavior of `auth.create_user`.  It rejects a
password shorter than six characters on strength grounds (`WeakCredential`),
rejects an email that already has an account (`DuplicateAccount`, the
backend's uniqueness constraint on email from spec sections 3 and 5), and
otherwise appends a fresh record with no linked providers. -/
def create_user (s : FirebaseState) (email : String) (password : Option String)
    (email_verified : Bool) (display_name photo_url : Option String) :
    Except CreateUserError (UserRecord × FirebaseState) :=
  if password.elim false (fun pw => decide (pw.length < 6)) then
    .error (.weakPassword
      "Invalid password string. Password must be a string at least 6 characters long.")
  else if s.users.any (fun u => u.email == email) then
    .error .emailAlreadyExists
  else
    let u : UserRecord := ⟨freshUid s, email, display_name, photo_url, email_verified, []⟩
    .ok (u, ⟨s.users ++ [u], s.nextUid + 1⟩)

/-- Modelled from the spec: `mintAssertionToken` of the identity backend
(spec section 4.2), the behavior of `auth.create_custom_token(uid)` followed
by `.decode('utf-8')` in the source. -/
def create_custom_token (uid : String) : String :=
  "custom-token-" ++ uid

/-- The message of a `CreateUserError` as it reaches `str(e)` in a generic
`except` clause. -/
def createUserErrorMessage : CreateUserError → String
  | .emailAlreadyExists => "The user with the provided email already exists"
  | .weakPassword m => m

/-- Whether `user_record.provider_data` holds an entry whose `provider_id`
and `uid` both equal the presented pair — the loop at
src/app/oauth.py lines 91-93. -/
def hasLink (u : UserRecord) (provider provider_uid : String) : Bool :=
  u.provider_data.any (fun pd => pd.provider_id == provider && pd.uid == provider_uid)

/-- The verified-claims fields extracted into `user_info` by `google_signin`
(src/app/oauth.py lines 142-147): `email`, `email_verified` (defaulted to
false), and optional `name` and `picture`. -/
structure UserInfo where
  email : String
  email_verified : Bool
  name : Option String
  picture : Option String
deriving DecidableEq, Repr

/-- `get_or_create_firebase_user(provider, provider_uid, user_info)` from
src/app/oauth.py lines 81-130 (identically
`GoogleOAuthProvider.get_or_create_firebase_user` in
src/app/auth/google_oauth.py lines 118-165): look the account up by email;
if found and an exact `(provider_id, uid)` entry is already present return
it with no mutation, if found without the exact entry link the pair to it,
and if absent create the account (trusting the provider's `email_verified`)
and then link the pair.  A backend creation failure is wrapped by the
generic `except` clause into a 500 error. -/
def get_or_create_firebase_user (provider provider_uid : String) (user_info : UserInfo)
    (s : FirebaseState) : Except HTTPError (UserRecord × FirebaseState) :=
  match get_user_by_email s user_info.email with
  | some user_record =>
    if hasLink user_record provider provider_uid then
      .ok (user_record, s)
    else
      .ok (user_record, link_provider_with_uid s user_record.uid provider provider_uid)
  | none =>
    match create_user s user_info.email none user_info.email_verified
        user_info.name user_info.picture with
    | .error e => .error ⟨500, "Error managing user: " ++ createUserErrorMessage e⟩
    | .ok (user_record, s1) =>
      .ok (user_record, link_provider_with_uid s1 user_record.uid provider provider_uid)

/-- `get_google_client_id` from src/app/oauth.py lines 44-52: read
`GOOGLE_OAUTH_CLIENT_ID` from the environment and fail with a 500
configuration error when it is absent or empty (Python `if not client_id`).
`GoogleOAuthProvider.get_google_client_id` via
`BaseAuthProvider.get_environment_variable` produces the same error. -/
def get_google_client_id (env : Env) : Except HTTPError String :=
  match env.google_oauth_client_id with
  | none => .error ⟨500,
      "Google OAuth client ID not configured. Set GOOGLE_OAUTH_CLIENT_ID environment variable."⟩
  | some cid =>
    if cid == "" then
      .error ⟨500,
        "Google OAuth client ID not configured. Set GOOGLE_OAUTH_CLIENT_ID environment variable."⟩
    else .ok cid

/-- `BaseAuthProvider.get_environment_variable` from src/app/auth/base.py
lines 60-68: return the variable's value, or raise a 500 configuration
error naming it when absent or empty. -/
def get_environment_variable (value : Option String) (var_name description : String) :
    Except HTTPError String :=
  match value with
  | none => .error ⟨500, description ++ " not configured. Set " ++ var_name ++
      " environment variable."⟩
  | some v =>
    if v == "" then
      .error ⟨500, description ++ " not configured. Set " ++ var_name ++
        " environment variable."⟩
    else .ok v

/-- The claims dictionary returned by the Google token library on success:
the fields read by the source (`iss`, `sub`, `email`, optional
`email_verified`, `name`, `picture`). -/
structure IdInfo where
  iss : String
  sub : String
  email : String
  email_verified : Option Bool
  name : Option String
  picture : Option String
deriving DecidableEq, Repr

/-- Outcome of the external call `id_token.verify_oauth2_token(...)`
(signature and expiry checking delegated to the Google library, out of
scope per spec section 4.1): it returns the claims, raises
`GoogleAuthError`, or raises `ValueError`. -/
inductive GoogleVerifyResult where
  | ok (idinfo : IdInfo)
  | authError (msg : String)
  | valueError (msg : String)
deriving DecidableEq, Repr

/-- `verify_google_token` from src/app/oauth.py lines 54-79 (identically
`GoogleOAuthProvider.verify_google_token` in src/app/auth/google_oauth.py
lines 93-116).  Inside the `try` block: obtain the client id (the
`HTTPException` it may raise is itself caught by the generic
`except Exception` clause and re-wrapped as a 500 whose detail embeds
`str(e)` = "status: detail"), call the library, and check that `iss` is one
of the two accepted issuer strings, anything else raising
`ValueError('Wrong issuer.')` which the `except ValueError` clause turns
into a 401. -/
def verify_google_token (env : Env) (lib : GoogleVerifyResult) :
    Except HTTPError IdInfo :=
  match get_google_client_id env with
  | .error e => .error ⟨500,
      "Error verifying Google token: " ++ toString e.status_code ++ ": " ++ e.detail⟩
  | .ok _ =>
    match lib with
    | .authError m => .error ⟨401, "Invalid Google token: " ++ m⟩
    | .valueError m => .error ⟨401, "Token verification failed: " ++ m⟩
    | .ok idinfo =>
      if idinfo.iss == "accounts.google.com" || idinfo.iss == "https://accounts.google.com" then
        .ok idinfo
      else
        .error ⟨401, "Token verification failed: Wrong issuer."⟩

/-- The `UserResponse` pydantic model of the email/password routes
(src/app/auth/email_password.py lines 24-28): `uid`, `email`,
`display_name`, `email_verified` — and no provider field. -/
structure UserResponse where
  uid : String
  email : String
  display_name : Option String
  email_verified : Bool
deriving DecidableEq, Repr

/-- The `AuthResponse` pydantic model of the email/password routes:
a `UserResponse` plus the token string. -/
structure AuthResponse where
  user : UserResponse
  token : String
deriving DecidableEq, Repr

instance {ε α : Type} [DecidableEq ε] [DecidableEq α] : DecidableEq (Except ε α) :=
  fun x y =>
    match x, y with
    | .error a, .error b =>
      if h : a = b then isTrue (congrArg Except.error h)
      else isFalse (fun hh => h (Except.error.inj hh))
    | .ok a, .ok b =>
      if h : a = b then isTrue (congrArg Except.ok h)
      else isFalse (fun hh => h (Except.ok.inj hh))
    | .error _, .ok _ => isFalse (fun hh => Except.noConfusion hh)
    | .ok _, .error _ => isFalse (fun hh => Except.noConfusion hh)

/-- Output of the `signup` handler: the HTTP result, the resulting backend
state, and the lines printed by the swallowed-failure branch of the
verification-email side effect. -/
structure SignupOut where
  result : Except HTTPError AuthResponse
  state : FirebaseState
  log : List String
deriving DecidableEq, Repr

/-- `signup` from src/app/auth/email_password.py lines 37-81 (same flow in
src/app/auth/basic_auth.py lines 40-112 and src/app/auth.py lines 30-69):
create the user with `email_verified=False`; attempt the verification-email
side effect, whose failure (`sendErr = some e`) is only printed
("Failed to send verification email: ...") and never propagated; mint a
custom token and return the created record.  `EmailAlreadyExistsError`
becomes a 400 "Email already exists" and a password-strength `ValueError`
(message mentioning "password") becomes a 400 "Password is too weak". -/
def signup (s : FirebaseState) (email password : String) (display_name : Option String)
    (sendErr : Option String) : SignupOut :=
  match create_user s email (some password) false display_name none with
  | .error .emailAlreadyExists => ⟨.error ⟨400, "Email already exists"⟩, s, []⟩
  | .error (.weakPassword m) =>
    if strContains m.toLower "password" then ⟨.error ⟨400, "Password is too weak"⟩, s, []⟩
    else ⟨.error ⟨400, m⟩, s, []⟩
  | .ok (u, s1) =>
    let log := match sendErr with
      | none => []
      | some e => ["Failed to send verification email: " ++ e]
    ⟨.ok ⟨⟨u.uid, u.email, u.display_name, u.email_verified⟩, create_custom_token u.uid⟩,
      s1, log⟩

/-- Outcome of the external Firebase REST call
`accounts:signInWithPassword` as consumed by `signin`: a 200 response
carrying `idToken`, or a non-200 response whose body may carry
`error.message` (absent keys default to "Unknown error" in the source). -/
inductive SignInBackendResult where
  | success (idToken : String)
  | failure (status : Nat) (message : Option String)
deriving DecidableEq, Repr

/-- `signin` from src/app/auth/email_password.py lines 83-127 (identically
src/app/auth.py lines 71-122 and src/app/auth/basic_auth.py lines 114-158):
require the Firebase API key (its configuration `HTTPException` is
re-raised unchanged by the `except HTTPException` clause); on a non-200
backend response classify `error.message` — a message containing
"EMAIL_NOT_FOUND" becomes 400 "Email not found", one containing
"INVALID_PASSWORD" becomes 400 "Invalid password", anything else is
surfaced unchanged as a 400; on success look the account up by email and
return it with the backend's `idToken` (the lookup's `UserNotFoundError`
falls into the generic 500 clause). -/
def signin (env : Env) (backend : SignInBackendResult) (s : FirebaseState)
    (email : String) : Except HTTPError AuthResponse :=
  match get_environment_variable env.firebase_api_key "FIREBASE_API_KEY" "Firebase API key" with
  | .error e => .error e
  | .ok _ =>
    match backend with
    | .failure _ msg =>
      let error_message := msg.getD "Unknown error"
      if strContains error_message "EMAIL_NOT_FOUND" then
        .error ⟨400, "Email not found"⟩
      else if strContains error_message "INVALID_PASSWORD" then
        .error ⟨400, "Invalid password"⟩
      else
        .error ⟨400, error_message⟩
    | .success idToken =>
      match get_user_by_email s email with
      | some u => .ok ⟨⟨u.uid, u.email, u.display_name, u.email_verified⟩, idToken⟩
      | none => .error ⟨500,
          "Error signing in: no user record found for the provided email"⟩

/-- The `VerificationResponse` pydantic model
(src/app/auth/email_password.py lines 33-35): a message and the account's
current `email_verified` flag. -/
structure VerificationResponse where
  message : String
  email_verified : Bool
deriving DecidableEq, Repr

/-- `send_verification_email` from src/app/auth/email_password.py lines
129-147 (the variant in src/app/auth/basic_auth.py lines 160-208 differs
only in how the email is transported): look the user up (404 when absent),
dispatch the verification email — `sendErr = some e` standing for a raised
dispatch failure, turned into a 500 by the generic clause — and on success
report "Verification email sent successfully" together with the account's
current `email_verified` flag.  No state is mutated in any branch. -/
def send_verification_email (s : FirebaseState) (uid : String) (sendErr : Option String) :
    (Except HTTPError VerificationResponse) × FirebaseState :=
  match get_user s uid with
  | none => (.error ⟨404, "User not found"⟩, s)
  | some u =>
    match sendErr with
    | some e => (.error ⟨500, "Error sending verification email: " ++ e⟩, s)
    | none => (.ok ⟨"Verification email sent successfully", u.email_verified⟩, s)

/-- `require_verification` from src/app/auth/email_password.py lines
185-204 (identically src/app/auth/basic_auth.py lines 274-293): look the
user up (404 when absent); when `email_verified` is false raise the 403
verification-required error, otherwise answer
`{"message": "Email is verified", "email_verified": True}`.  A guard only:
no state is mutated. -/
def require_verification (s : FirebaseState) (uid : String) :
    (Except HTTPError VerificationResponse) × FirebaseState :=
  match get_user s uid with
  | none => (.error ⟨404, "User not found"⟩, s)
  | some u =>
    if !u.email_verified then
      (.error ⟨403,
        "Email verification required. Please check your email and click the verification link."⟩,
        s)
    else
      (.ok ⟨"Email is verified", true⟩, s)

/-- The fields of a decoded Firebase ID token read by `verify_token`:
`uid`, and optional `email` and `email_verified` claims. -/
structure DecodedToken where
  uid : String
  email : Option String
  email_verified : Option Bool
deriving DecidableEq, Repr

/-- Outcome of the external call `auth.verify_id_token(token)`: the decoded
claims, or a raised verification failure. -/
inductive DecodeResult where
  | ok (decoded : DecodedToken)
  | fail (msg : String)
deriving DecidableEq, Repr

/-- The dictionary returned by `verify_token`: `valid`, `uid`, the optional
`email` / `email_verified` fields of the success shape, the optional
`error` field of the deleted-user shape, and `user_exists`. -/
structure VerifyTokenResponse where
  valid : Bool
  uid : String
  email : Option String
  email_verified : Option Bool
  error : Option String
  user_exists : Bool
deriving DecidableEq, Repr

/-- `verify_token` from src/app/auth.py lines 168-196 (identically
src/app/auth/email_password.py lines 244-270 and
src/app/auth/basic_auth.py lines 333-359): a token that fails to decode
raises 401 "Invalid token: ..."; a decoded token whose `uid` has no account
returns normally with `valid=False`, `error="User has been deleted"` and
`user_exists=False`; a decoded token whose account exists returns
`valid=True` with the token's claims. -/
def verify_token (s : FirebaseState) (decode : DecodeResult) :
    Except HTTPError VerifyTokenResponse :=
  match decode with
  | .fail m => .error ⟨401, "Invalid token: " ++ m⟩
  | .ok d =>
    match get_user s d.uid with
    | some _ => .ok ⟨true, d.uid, d.email, some (d.email_verified.getD false), none, true⟩
    | none => .ok ⟨false, d.uid, none, none, some "User has been deleted", false⟩

/-! ## Theorems -/

/-- A concrete store holding one unverified and one verified account. -/
def twoUserState : FirebaseState :=
  ⟨[⟨"u1", "a@x.com", none, none, false, []⟩,
    ⟨"u2", "b@x.com", none, none, true, []⟩], 2⟩

/-- C3: for every existing account, `require_verification` fails with the
403 VerificationRequired error exactly when the account's `email_verified`
is false, succeeds reporting the email as verified whenever it is true, and
never changes the backend state. -/
theorem c3_require_verification_guard (s : FirebaseState) (uid : String)
    (u : UserRecord) (h : get_user s uid = some u) :
    ((require_verification s uid).1 = .error ⟨403,
        "Email verification required. Please check your email and click the verification link."⟩
      ↔ u.email_verified = false) ∧
    (u.email_verified = true →
      (require_verification s uid).1 = .ok ⟨"Email is verified", true⟩) ∧
    (require_verification s uid).2 = s := by
  unfold require_verification
  rw [h]
  cases hv : u.email_verified <;> simp [hv]

/-- C3 witness: on the concrete store, the unverified account is rejected
with the 403 guard error and the verified one passes. -/
theorem c3_require_verification_guard_witness :
    (require_verification twoUserState "u1").1 = .error ⟨403,
      "Email verification required. Please check your email and click the verification link."⟩ ∧
    (require_verification twoUserState "u2").1 = .ok ⟨"Email is verified", true⟩ :=
  ⟨(c3_require_verification_guard twoUserState "u1"
      ⟨"u1", "a@x.com", none, none, false, []⟩ rfl).1.mpr rfl,
   (c3_require_verification_guard twoUserState "u2"
      ⟨"u2", "b@x.com", none, none, true, []⟩ rfl).2.1 rfl⟩

/-- C4 counterexample: `send_verification_email` on an account whose
`email_verified` is already true proceeds as a normal success
("Verification email sent successfully"), so the operation is not
restricted to the Unverified state. -/
theorem c4_send_verification_counterexample :
    send_verification_email
      ⟨[⟨"u1", "v@x.com", none, none, true, []⟩], 1⟩ "u1" none =
    (.ok ⟨"Verification email sent successfully", true⟩,
      ⟨[⟨"u1", "v@x.com", none, none, true, []⟩], 1⟩) := rfl

/-- C4 (amended): `send_verification_email` never changes the backend
state, and for every existing account — whatever its verification state —
a successful dispatch returns the normal success response carrying the
account's current `email_verified` flag; the handler has no guard
restricting it to unverified accounts. -/
theorem c4_send_verification_no_guard (s : FirebaseState) (uid : String)
    (sendErr : Option String) :
    (send_verification_email s uid sendErr).2 = s ∧
    (∀ u, get_user s uid = some u →
      (send_verification_email s uid none).1 =
        .ok ⟨"Verification email sent successfully", u.email_verified⟩) := by
  constructor
  · unfold send_verification_email
    cases h : get_user s uid <;> cases sendErr <;> simp
  · intro u h
    unfold send_verification_email
    rw [h]

/-- C4 witness: the amended theorem applied to the verified concrete
account. -/
theorem c4_send_verification_no_guard_witness :
    (send_verification_email twoUserState "u2" none).1 =
      .ok ⟨"Verification email sent successfully", true⟩ :=
  (c4_send_verification_no_guard twoUserState "u2" none).2
    ⟨"u2", "b@x.com", none, none, true, []⟩ rfl

/-- C7: with a configured client id and a token the library verifies, token
verification succeeds exactly when the issuer claim is one of the two
accepted issuer strings, and any other issuer value fails with the 401
issuer-mismatch (InvalidToken) error. -/
theorem c7_issuer_check (env : Env) (cid : String)
    (hc : get_google_client_id env = .ok cid) (idinfo : IdInfo) :
    (verify_google_token env (.ok idinfo) = .ok idinfo ↔
      (idinfo.iss = "accounts.google.com" ∨
       idinfo.iss = "https://accounts.google.com")) ∧
    ((idinfo.iss ≠ "accounts.google.com" ∧
      idinfo.iss ≠ "https://accounts.google.com") →
      verify_google_token env (.ok idinfo) =
        .error ⟨401, "Token verification failed: Wrong issuer."⟩) := by
  unfold verify_google_token
  rw [hc]
  by_cases h1 : idinfo.iss = "accounts.google.com" <;>
    by_cases h2 : idinfo.iss = "https://accounts.google.com" <;>
      simp [h1, h2]

/-- C7 witness: with a configured client id, claims verified by the library
but issued by "evil.example" are rejected with the 401 issuer error. -/
theorem c7_issuer_check_witness :
    verify_google_token ⟨some "client-1", none⟩
      (.ok ⟨"evil.example", "sub1", "e@x.com", some true, none, none⟩) =
    .error ⟨401, "Token verification failed: Wrong issuer."⟩ :=
  (c7_issuer_check ⟨some "client-1", none⟩ "client-1" rfl
    ⟨"evil.example", "sub1", "e@x.com", some true, none, none⟩).2
    ⟨by decide, by decide⟩

/-- C8: with no configured audience, every token verification attempt fails
with a 500 configuration error raised at first use (the environment is
read inside the handler), whereas a token the library rejects fails with a
401 InvalidToken error whenever the client id is configured; the two
failure kinds carry different status codes and are distinguishable. -/
theorem c8_missing_audience_config_error (env : Env) (lib : GoogleVerifyResult)
    (h : env.google_oauth_client_id = none) :
    verify_google_token env lib = .error ⟨500,
      "Error verifying Google token: 500: Google OAuth client ID not configured. Set GOOGLE_OAUTH_CLIENT_ID environment variable."⟩ ∧
    (∀ env2 cid m, get_google_client_id env2 = .ok cid →
      verify_google_token env2 (.authError m) =
        .error ⟨401, "Invalid Google token: " ++ m⟩ ∧
      verify_google_token env2 (.valueError m) =
        .error ⟨401, "Token verification failed: " ++ m⟩) ∧
    (500 : Nat) ≠ 401 := by
  refine ⟨?_, ?_, by decide⟩
  · unfold verify_google_token get_google_client_id
    rw [h]
    rfl
  · intro env2 cid m hc
    unfold verify_google_token
    rw [hc]
    exact ⟨rfl, rfl⟩

/-- C8 witness: the configuration failure on an environment with no client
id, for a token the library would have rejected. -/
theorem c8_missing_audience_config_error_witness :
    verify_google_token ⟨none, none⟩ (.authError "bad signature") = .error ⟨500,
      "Error verifying Google token: 500: Google OAuth client ID not configured. Set GOOGLE_OAUTH_CLIENT_ID environment variable."⟩ :=
  (c8_missing_audience_config_error ⟨none, none⟩ (.authError "bad signature") rfl).1

/-- C10: a token that decodes successfully but whose subject uid has no
account produces a normal (non-error) response with `valid = false` and
`user_exists = false`; an error (the 401 InvalidToken failure) arises only
when the token itself fails to decode. -/
theorem c10_verify_token_deleted_user (s : FirebaseState) (d : DecodedToken)
    (h : get_user s d.uid = none) :
    verify_token s (.ok d) =
      .ok ⟨false, d.uid, none, none, some "User has been deleted", false⟩ ∧
    (∀ dec e, verify_token s dec = .error e →
      ∃ m, dec = .fail m ∧ e = ⟨401, "Invalid token: " ++ m⟩) := by
  constructor
  · simp only [verify_token]
    rw [h]
  · intro dec e he
    cases dec with
    | fail m =>
      refine ⟨m, rfl, ?_⟩
      simp only [verify_token] at he
      exact (Except.error.inj he).symm
    | ok d' =>
      simp only [verify_token] at he
      split at he <;> simp at he

/-- C10 witness: a decoded token for uid "ghost" against the empty store
answers the deleted-user shape rather than an error. -/
theorem c10_verify_token_deleted_user_witness :
    verify_token ⟨[], 0⟩ (.ok ⟨"ghost", some "g@x.com", some true⟩) =
      .ok ⟨false, "ghost", none, none, some "User has been deleted", false⟩ :=
  (c10_verify_token_deleted_user ⟨[], 0⟩ ⟨"ghost", some "g@x.com", some true⟩ rfl).1

/-- Shape of a successful `create_user` call: the record is freshly
numbered, carries the requested fields, has no linked providers, and is
appended to the store. -/
theorem create_user_ok (s : FirebaseState) (email : String) (password : Option String)
    (ev : Bool) (dn pu : Option String) (u : UserRecord) (s' : FirebaseState)
    (h : create_user s email password ev dn pu = .ok (u, s')) :
    u = ⟨freshUid s, email, dn, pu, ev, []⟩ ∧
    s' = ⟨s.users ++ [u], s.nextUid + 1⟩ := by
  unfold create_user at h
  split at h
  · exact absurd h (by simp)
  · split at h
    · exact absurd h (by simp)
    · injection h with h2
      injection h2 with ha hb
      subst ha
      exact ⟨rfl, hb.symm⟩

/-- C5 counterexample: when the backend rejects the credentials with the
error string "EMAIL_NOT_FOUND", `signin` surfaces the fixed message
"Email not found" — not the backend error string unchanged. -/
theorem c5_backend_string_counterexample :
    signin ⟨none, some "api-key"⟩ (.failure 400 (some "EMAIL_NOT_FOUND")) ⟨[], 0⟩
      "u@x.com" = .error ⟨400, "Email not found"⟩ ∧
    "Email not found" ≠ "EMAIL_NOT_FOUND" := by
  exact ⟨rfl, by decide⟩

/-- C5 (amended): when password login fails because the backend rejects the
credentials, `signin` fails with a 400 AuthenticationFailed error; the two
sub-cases are mapped to the fixed distinct messages "Email not found" and
"Invalid password" (replacing, not preserving, the backend strings
"EMAIL_NOT_FOUND" / "INVALID_PASSWORD"), so the caller can still
distinguish them; only unrecognized backend strings are surfaced
unchanged. -/
theorem c5_credential_error_mapping (env : Env) (key : String)
    (hk : get_environment_variable env.firebase_api_key "FIREBASE_API_KEY"
      "Firebase API key" = .ok key)
    (st : Nat) (m : String) (s : FirebaseState) (email : String) :
    (strContains m "EMAIL_NOT_FOUND" = true →
      signin env (.failure st (some m)) s email = .error ⟨400, "Email not found"⟩) ∧
    (strContains m "EMAIL_NOT_FOUND" = false →
      strContains m "INVALID_PASSWORD" = true →
      signin env (.failure st (some m)) s email = .error ⟨400, "Invalid password"⟩) ∧
    (strContains m "EMAIL_NOT_FOUND" = false →
      strContains m "INVALID_PASSWORD" = false →
      signin env (.failure st (some m)) s email = .error ⟨400, m⟩) ∧
    "Email not found" ≠ "Invalid password" := by
  refine ⟨?_, ?_, ?_, by decide⟩
  · intro h1
    unfold signin
    rw [hk]
    simp [h1]
  · intro h1 h2
    unfold signin
    rw [hk]
    simp [h1, h2]
  · intro h1 h2
    unfold signin
    rw [hk]
    simp [h1, h2]

/-- C5 witness: the invalid-password sub-case mapped to its fixed
message. -/
theorem c5_credential_error_mapping_witness :
    signin ⟨none, some "api-key"⟩ (.failure 400 (some "INVALID_PASSWORD")) ⟨[], 0⟩
      "u@x.com" = .error ⟨400, "Invalid password"⟩ :=
  (c5_credential_error_mapping ⟨none, some "api-key"⟩ "api-key" rfl 400
    "INVALID_PASSWORD" ⟨[], 0⟩ "u@x.com").2.1 (by decide) (by decide)

/-- C6 counterexample: the complete response of a concrete successful
password signup.  Its components are exactly the four user fields and the
minted token; none of them is a provider identifier, so the response does
not carry providerId "password" (the password-flow `AuthResponse` has no
provider field, unlike the OAuth response model). -/
theorem c6_signup_no_provider_counterexample :
    (signup ⟨[], 0⟩ "u@x.com" "pw123456" none none).result =
      .ok ⟨⟨"uid0", "u@x.com", none, false⟩, "custom-token-uid0"⟩ ∧
    "uid0" ≠ "password" ∧ "u@x.com" ≠ "password" ∧
    "custom-token-uid0" ≠ "password" := by
  exact ⟨rfl, by decide, by decide, by decide⟩

/-- C6 (amended): every successful password signup returns a response whose
account has `email_verified = false` and whose token is the custom token
minted for that account's uid; the verification-email side effect is fully
absorbed — its outcome never changes the handler's result or the backend
state, a dispatch failure only being logged. -/
theorem c6_signup_unverified_and_absorbed (s : FirebaseState) (email pw : String)
    (dn : Option String) :
    (∀ sendErr r, (signup s email pw dn sendErr).result = .ok r →
      r.user.email_verified = false ∧ r.token = create_custom_token r.user.uid) ∧
    (∀ e1 e2, (signup s email pw dn e1).result = (signup s email pw dn e2).result ∧
      (signup s email pw dn e1).state = (signup s email pw dn e2).state) ∧
    (∀ e r, (signup s email pw dn (some e)).result = .ok r →
      (signup s email pw dn (some e)).log =
        ["Failed to send verification email: " ++ e]) := by
  refine ⟨?_, ?_, ?_⟩
  · intro sendErr r h
    cases hc : create_user s email (some pw) false dn none with
    | error err =>
      cases err with
      | emailAlreadyExists =>
        simp only [signup, hc] at h
        exact Except.noConfusion h
      | weakPassword m =>
        simp only [signup, hc] at h
        split at h
        · exact Except.noConfusion h
        · exact Except.noConfusion h
    | ok us =>
      obtain ⟨u, s1⟩ := us
      obtain ⟨hu, _⟩ := create_user_ok s email (some pw) false dn none u s1 hc
      subst hu
      have h2 : (signup s email pw dn sendErr).result =
          .ok ⟨⟨freshUid s, email, dn, false⟩, create_custom_token (freshUid s)⟩ := by
        simp only [signup, hc]
      rw [h2] at h
      rw [← Except.ok.inj h]
      exact ⟨rfl, rfl⟩
  · intro e1 e2
    unfold signup
    cases hc : create_user s email (some pw) false dn none with
    | error err => cases err <;> exact ⟨rfl, rfl⟩
    | ok us =>
      obtain ⟨u, s1⟩ := us
      exact ⟨rfl, rfl⟩
  · intro e r h
    cases hc : create_user s email (some pw) false dn none with
    | error err =>
      cases err with
      | emailAlreadyExists =>
        simp only [signup, hc] at h
        exact Except.noConfusion h
      | weakPassword m =>
        simp only [signup, hc] at h
        split at h
        · exact Except.noConfusion h
        · exact Except.noConfusion h
    | ok us =>
      obtain ⟨u, s1⟩ := us
      simp only [signup, hc]

/-- C6 witness: on a concrete signup, the result and state are identical
whether the verification email fails or succeeds, the account is
unverified, and the failure is logged. -/
theorem c6_signup_unverified_and_absorbed_witness :
    ((signup ⟨[], 0⟩ "u@x.com" "pw123456" none (some "smtp down")).result =
      (signup ⟨[], 0⟩ "u@x.com" "pw123456" none none).result) ∧
    (⟨⟨"uid0", "u@x.com", none, false⟩, "custom-token-uid0"⟩ :
        AuthResponse).user.email_verified = false ∧
    (signup ⟨[], 0⟩ "u@x.com" "pw123456" none (some "smtp down")).log =
      ["Failed to send verification email: smtp down"] :=
  ⟨((c6_signup_unverified_and_absorbed ⟨[], 0⟩ "u@x.com" "pw123456" none).2.1
      (some "smtp down") none).1,
   ((c6_signup_unverified_and_absorbed ⟨[], 0⟩ "u@x.com" "pw123456" none).1
      (some "smtp down") ⟨⟨"uid0", "u@x.com", none, false⟩, "custom-token-uid0"⟩
      rfl).1,
   (c6_signup_unverified_and_absorbed ⟨[], 0⟩ "u@x.com" "pw123456" none).2.2
      "smtp down" ⟨⟨"uid0", "u@x.com", none, false⟩, "custom-token-uid0"⟩ rfl⟩

/-- Looking an email up after a provider link is added finds the same
record as before, with the link appended when the record is the one whose
uid was linked: linking changes no email, so the lookup commutes with the
per-record update. -/
theorem get_user_by_email_link (s : FirebaseState) (uid p pu e : String) :
    get_user_by_email (link_provider_with_uid s uid p pu) e =
      (get_user_by_email s e).map (fun u =>
        if u.uid == uid then
          { u with provider_data := u.provider_data ++ [⟨p, pu⟩] }
        else u) := by
  unfold get_user_by_email link_provider_with_uid
  dsimp only
  rw [List.find?_map]
  have hp : ((fun u : UserRecord => u.email == e) ∘ (fun u =>
      if u.uid == uid then
        { u with provider_data := u.provider_data ++ [⟨p, pu⟩] }
      else u)) = (fun u : UserRecord => u.email == e) := by
    funext u
    cases h : u.uid == uid <;> simp [Function.comp, h]
  rw [hp]

/-- A record to which the pair `(p, pu)` was just appended holds that exact
link. -/
theorem hasLink_link_self (u : UserRecord) (p pu : String) :
    hasLink { u with provider_data := u.provider_data ++ [⟨p, pu⟩] } p pu = true := by
  simp [hasLink]

/-- `create_user` succeeds on an acceptable password and an email no
existing record holds, appending the freshly numbered record. -/
theorem create_user_not_exists (s : FirebaseState) (email : String)
    (password : Option String) (ev : Bool) (dn pu : Option String)
    (hw : password.elim false (fun q => decide (q.length < 6)) = false)
    (hnm : ∀ u ∈ s.users, u.email ≠ email) :
    create_user s email password ev dn pu =
      .ok (⟨freshUid s, email, dn, pu, ev, []⟩,
        ⟨s.users ++ [⟨freshUid s, email, dn, pu, ev, []⟩], s.nextUid + 1⟩) := by
  have ha : s.users.any (fun u => u.email == email) = false := by
    rw [List.any_eq_false]
    intro u hu
    simpa using hnm u hu
  simp [create_user, hw, ha]

/-- C1: when the verified email already belongs to an account that already
holds the exact presented `(provider, provider_uid)` pair,
`get_or_create_firebase_user` performs no mutation and returns that
account with the store unchanged; and from any starting store, re-running
the operation on the store a successful run produced succeeds and leaves
that store unchanged — repetition is idempotent on the account store. -/
theorem c1_oauth_link_idempotent (p pu : String) (info : UserInfo) (s : FirebaseState) :
    (∀ u, get_user_by_email s info.email = some u → hasLink u p pu = true →
      get_or_create_firebase_user p pu info s = .ok (u, s)) ∧
    (∀ u1 s1, get_or_create_firebase_user p pu info s = .ok (u1, s1) →
      ∃ u2, get_or_create_firebase_user p pu info s1 = .ok (u2, s1)) := by
  constructor
  · intro u hf hl
    simp [get_or_create_firebase_user, hf, hl]
  · intro u1 s1 h
    cases hf : get_user_by_email s info.email with
    | some u =>
      cases hl : hasLink u p pu with
      | true =>
        simp only [get_or_create_firebase_user, hf, hl, if_true, Except.ok.injEq,
          Prod.mk.injEq] at h
        obtain ⟨hu, hs⟩ := h
        subst hu
        subst hs
        exact ⟨u, by simp [get_or_create_firebase_user, hf, hl]⟩
      | false =>
        simp only [get_or_create_firebase_user, hf, hl, Bool.false_eq_true, if_false,
          Except.ok.injEq, Prod.mk.injEq] at h
        obtain ⟨hu, hs⟩ := h
        subst hu
        subst hs
        have hfl : get_user_by_email (link_provider_with_uid s u.uid p pu) info.email =
            some { u with provider_data := u.provider_data ++ [⟨p, pu⟩] } := by
          rw [get_user_by_email_link, hf]
          simp
        refine ⟨{ u with provider_data := u.provider_data ++ [⟨p, pu⟩] }, ?_⟩
        simp [get_or_create_firebase_user, hfl, hasLink_link_self]
    | none =>
      simp only [get_or_create_firebase_user, hf] at h
      cases hc : create_user s info.email none info.email_verified info.name info.picture with
      | error e =>
        rw [hc] at h
        exact Except.noConfusion h
      | ok us =>
        obtain ⟨w, sMid⟩ := us
        rw [hc] at h
        simp only [Except.ok.injEq, Prod.mk.injEq] at h
        obtain ⟨hw1, hs1⟩ := h
        subst hw1
        subst hs1
        obtain ⟨hw, hs⟩ := create_user_ok s info.email none info.email_verified
          info.name info.picture w sMid hc
        have hfmid : get_user_by_email sMid info.email = some w := by
          rw [hs]
          unfold get_user_by_email
          dsimp only
          rw [List.find?_append]
          have h0 : s.users.find? (fun u => u.email == info.email) = none := hf
          rw [h0]
          simp [hw]
        have hfl : get_user_by_email (link_provider_with_uid sMid w.uid p pu) info.email =
            some { w with provider_data := w.provider_data ++ [⟨p, pu⟩] } := by
          rw [get_user_by_email_link, hfmid]
          simp
        refine ⟨{ w with provider_data := w.provider_data ++ [⟨p, pu⟩] }, ?_⟩
        simp [get_or_create_firebase_user, hfl, hasLink_link_self]

/-- A store holding one account whose email already carries the exact
Google link `g-1`. -/
def linkedState : FirebaseState :=
  ⟨[⟨"u1", "u@x.com", none, none, true, [⟨"google.com", "g-1"⟩]⟩], 1⟩

/-- C1 witness: presenting the already-linked pair returns the account with
the store untouched, and re-running on the produced store changes
nothing. -/
theorem c1_oauth_link_idempotent_witness :
    get_or_create_firebase_user "google.com" "g-1" ⟨"u@x.com", true, none, none⟩
      linkedState =
      .ok (⟨"u1", "u@x.com", none, none, true, [⟨"google.com", "g-1"⟩]⟩, linkedState) ∧
    ∃ u2, get_or_create_firebase_user "google.com" "g-1" ⟨"u@x.com", true, none, none⟩
      linkedState = .ok (u2, linkedState) :=
  ⟨(c1_oauth_link_idempotent "google.com" "g-1" ⟨"u@x.com", true, none, none⟩
      linkedState).1 ⟨"u1", "u@x.com", none, none, true, [⟨"google.com", "g-1"⟩]⟩ rfl rfl,
   (c1_oauth_link_idempotent "google.com" "g-1" ⟨"u@x.com", true, none, none⟩
      linkedState).2 ⟨"u1", "u@x.com", none, none, true, [⟨"google.com", "g-1"⟩]⟩
      linkedState
      ((c1_oauth_link_idempotent "google.com" "g-1" ⟨"u@x.com", true, none, none⟩
        linkedState).1 ⟨"u1", "u@x.com", none, none, true, [⟨"google.com", "g-1"⟩]⟩
        rfl rfl)⟩

/-- C2 counterexample: an account already holding the link
`("google.com", "g-old")` is presented with `("google.com", "g-new")`; the
operation attaches a second link with providerId "google.com", so the
at-most-one-link-per-providerId invariant is not preserved. -/
theorem c2_second_link_counterexample :
    get_or_create_firebase_user "google.com" "g-new" ⟨"u@x.com", true, none, none⟩
      ⟨[⟨"u1", "u@x.com", none, none, true, [⟨"google.com", "g-old"⟩]⟩], 1⟩ =
    .ok (⟨"u1", "u@x.com", none, none, true, [⟨"google.com", "g-old"⟩]⟩,
      ⟨[⟨"u1", "u@x.com", none, none, true,
        [⟨"google.com", "g-old"⟩, ⟨"google.com", "g-new"⟩]⟩], 1⟩) ∧
    (([⟨"google.com", "g-old"⟩, ⟨"google.com", "g-new"⟩] : List ProviderData).countP
      (fun pd => pd.provider_id == "google.com")) = 2 :=
  ⟨rfl, rfl⟩

/-- C2 (amended): the operation prevents only exact
`(providerId, providerSubject)` duplicates on the resolved account: when
the account already holds a link with the same providerId but a different
providerSubject (and not the exact pair), the operation attaches the new
pair anyway, leaving the account with at least two links for that
providerId — the at-most-one-link-per-providerId invariant is not
preserved. -/
theorem c2_per_provider_uniqueness_not_preserved (s : FirebaseState) (p pu : String)
    (info : UserInfo) (u : UserRecord)
    (hf : get_user_by_email s info.email = some u)
    (hex : ∃ pd ∈ u.provider_data, pd.provider_id = p ∧ pd.uid ≠ pu)
    (hno : hasLink u p pu = false) :
    get_or_create_firebase_user p pu info s =
      .ok (u, link_provider_with_uid s u.uid p pu) ∧
    ∃ w, get_user_by_email (link_provider_with_uid s u.uid p pu) info.email = some w ∧
      2 ≤ w.provider_data.countP (fun q => q.provider_id == p) := by
  constructor
  · simp [get_or_create_firebase_user, hf, hno]
  · refine ⟨{ u with provider_data := u.provider_data ++ [⟨p, pu⟩] }, ?_, ?_⟩
    · rw [get_user_by_email_link, hf]
      simp
    · dsimp only
      rw [List.countP_append]
      obtain ⟨pd, hmem, hpid, _⟩ := hex
      have h1 : 0 < u.provider_data.countP (fun q => q.provider_id == p) := by
        rw [List.countP_pos_iff]
        exact ⟨pd, hmem, by simp [hpid]⟩
      have h2 : ([⟨p, pu⟩] : List ProviderData).countP
          (fun q => q.provider_id == p) = 1 := by simp
      omega

/-- C2 witness: the amended theorem applied to the concrete
one-account store already linked to `("google.com", "g-old")`. -/
theorem c2_per_provider_uniqueness_not_preserved_witness :
    get_or_create_firebase_user "google.com" "g-new" ⟨"u@x.com", true, none, none⟩
      ⟨[⟨"u1", "u@x.com", none, none, true, [⟨"google.com", "g-old"⟩]⟩], 1⟩ =
      .ok (⟨"u1", "u@x.com", none, none, true, [⟨"google.com", "g-old"⟩]⟩,
        link_provider_with_uid
          ⟨[⟨"u1", "u@x.com", none, none, true, [⟨"google.com", "g-old"⟩]⟩], 1⟩
          "u1" "google.com" "g-new") ∧
    ∃ w, get_user_by_email
        (link_provider_with_uid
          ⟨[⟨"u1", "u@x.com", none, none, true, [⟨"google.com", "g-old"⟩]⟩], 1⟩
          "u1" "google.com" "g-new") "u@x.com" = some w ∧
      2 ≤ w.provider_data.countP (fun q => q.provider_id == "google.com") :=
  c2_per_provider_uniqueness_not_preserved
    ⟨[⟨"u1", "u@x.com", none, none, true, [⟨"google.com", "g-old"⟩]⟩], 1⟩
    "google.com" "g-new" ⟨"u@x.com", true, none, none⟩
    ⟨"u1", "u@x.com", none, none, true, [⟨"google.com", "g-old"⟩]⟩
    rfl (by decide) rfl

/-- When no record holds the asserted email, `get_or_create_firebase_user`
creates a fresh account carrying that email and links the pair to it; the
new store answers the asserted email with a record carrying it, and still
answers every other email it answered before with a record of the same
email. -/
theorem get_or_create_fresh_lookup (p pu e2 : String) (ev : Bool) (nm pic : Option String)
    (s' : FirebaseState) (hfind : get_user_by_email s' e2 = none) :
    ∃ u2 s2, get_or_create_firebase_user p pu ⟨e2, ev, nm, pic⟩ s' = .ok (u2, s2) ∧
      u2.email = e2 ∧
      (∃ w2, get_user_by_email s2 e2 = some w2 ∧ w2.email = e2) ∧
      (∀ e w, e ≠ e2 → get_user_by_email s' e = some w →
        ∃ w', get_user_by_email s2 e = some w' ∧ w'.email = w.email) := by
  have hnm : ∀ u ∈ s'.users, u.email ≠ e2 := by
    intro u hu
    simpa using List.find?_eq_none.mp hfind u hu
  have hc := create_user_not_exists s' e2 none ev nm pic rfl hnm
  have hfind' : s'.users.find? (fun u => u.email == e2) = none := hfind
  refine ⟨⟨freshUid s', e2, nm, pic, ev, []⟩,
    link_provider_with_uid
      ⟨s'.users ++ [⟨freshUid s', e2, nm, pic, ev, []⟩], s'.nextUid + 1⟩
      (freshUid s') p pu, ?_, rfl, ?_, ?_⟩
  · simp [get_or_create_firebase_user, hfind, hc]
  · have hfmid : get_user_by_email
        (⟨s'.users ++ [⟨freshUid s', e2, nm, pic, ev, []⟩], s'.nextUid + 1⟩ :
          FirebaseState) e2 = some ⟨freshUid s', e2, nm, pic, ev, []⟩ := by
      unfold get_user_by_email
      dsimp only
      rw [List.find?_append, hfind']
      simp [List.find?]
    refine ⟨⟨freshUid s', e2, nm, pic, ev, [⟨p, pu⟩]⟩, ?_, rfl⟩
    rw [get_user_by_email_link, hfmid]
    simp
  · intro e w hne' hw
    have hw' : s'.users.find? (fun u => u.email == e) = some w := hw
    have hfmid : get_user_by_email
        (⟨s'.users ++ [⟨freshUid s', e2, nm, pic, ev, []⟩], s'.nextUid + 1⟩ :
          FirebaseState) e = some w := by
      unfold get_user_by_email
      dsimp only
      rw [List.find?_append, hw']
      rfl
    rw [get_user_by_email_link, hfmid]
    refine ⟨_, rfl, ?_⟩
    cases h : w.uid == freshUid s' <;> simp [h]

/-- C9: email matching in reconciliation is exact and case-sensitive —
for any two distinct emails (in particular two differing only in letter
case), a password signup with the first followed by an OAuth
reconciliation asserting the second resolves to two distinct accounts:
the OAuth account carries the second email, and afterwards the store
answers the two emails with two different records. -/
theorem c9_case_sensitive_reconciliation (s : FirebaseState) (e1 e2 pw sub : String)
    (ev : Bool) (nm pic : Option String)
    (hclean : ∀ u ∈ s.users, u.email ≠ e1 ∧ u.email ≠ e2)
    (hne : e1 ≠ e2)
    (_hcase : e1.data.map Char.toLower = e2.data.map Char.toLower)
    (hpw : decide (pw.length < 6) = false) :
    ∃ r u2 s2 w1 w2,
      (signup s e1 pw none none).result = .ok r ∧
      get_or_create_firebase_user "google.com" sub ⟨e2, ev, nm, pic⟩
        (signup s e1 pw none none).state = .ok (u2, s2) ∧
      r.user.email = e1 ∧ u2.email = e2 ∧
      get_user_by_email s2 e1 = some w1 ∧
      get_user_by_email s2 e2 = some w2 ∧
      w1.email = e1 ∧ w2.email = e2 ∧ w1 ≠ w2 := by
  have hc1 := create_user_not_exists s e1 (some pw) false none none hpw
    (fun u hu => (hclean u hu).1)
  have hsign : signup s e1 pw none none =
      ⟨.ok ⟨⟨freshUid s, e1, none, false⟩, create_custom_token (freshUid s)⟩,
        ⟨s.users ++ [⟨freshUid s, e1, none, none, false, []⟩], s.nextUid + 1⟩, []⟩ := by
    simp [signup, hc1]
  have h0e1 : s.users.find? (fun u => u.email == e1) = none := by
    rw [List.find?_eq_none]
    intro u hu
    simpa using (hclean u hu).1
  have h0e2 : s.users.find? (fun u => u.email == e2) = none := by
    rw [List.find?_eq_none]
    intro u hu
    simpa using (hclean u hu).2
  have hb : (e1 == e2) = false := by
    simpa using hne
  have hfind2 : get_user_by_email
      (⟨s.users ++ [⟨freshUid s, e1, none, none, false, []⟩], s.nextUid + 1⟩ :
        FirebaseState) e2 = none := by
    unfold get_user_by_email
    dsimp only
    rw [List.find?_append, h0e2]
    simp [List.find?, hb]
  obtain ⟨u2, s2, hoc, hu2email, ⟨w2, hw2, hw2email⟩, hpres⟩ :=
    get_or_create_fresh_lookup "google.com" sub e2 ev nm pic
      (⟨s.users ++ [⟨freshUid s, e1, none, none, false, []⟩], s.nextUid + 1⟩ :
        FirebaseState) hfind2
  have hfmid1 : get_user_by_email
      (⟨s.users ++ [⟨freshUid s, e1, none, none, false, []⟩], s.nextUid + 1⟩ :
        FirebaseState) e1 = some ⟨freshUid s, e1, none, none, false, []⟩ := by
    unfold get_user_by_email
    dsimp only
    rw [List.find?_append, h0e1]
    simp [List.find?]
  obtain ⟨w1, hw1, hw1email⟩ :=
    hpres e1 ⟨freshUid s, e1, none, none, false, []⟩ hne hfmid1
  refine ⟨⟨⟨freshUid s, e1, none, false⟩, create_custom_token (freshUid s)⟩, u2, s2,
    w1, w2, ?_, ?_, rfl, hu2email, hw1, hw2, hw1email, hw2email, ?_⟩
  · rw [hsign]
  · rw [hsign]
    exact hoc
  · intro heq
    apply hne
    have h4 := hw1email
    rw [heq, hw2email] at h4
    exact h4.symm

/-- C9 witness: signup with "A@x.com" followed by an OAuth login asserting
"a@x.com" (same letters, different case) yields two distinct accounts. -/
theorem c9_case_sensitive_reconciliation_witness :
    ∃ r u2 s2 w1 w2,
      (signup ⟨[], 0⟩ "A@x.com" "pw123456" none none).result = .ok r ∧
      get_or_create_firebase_user "google.com" "g-1" ⟨"a@x.com", true, none, none⟩
        (signup ⟨[], 0⟩ "A@x.com" "pw123456" none none).state = .ok (u2, s2) ∧
      r.user.email = "A@x.com" ∧ u2.email = "a@x.com" ∧
      get_user_by_email s2 "A@x.com" = some w1 ∧
      get_user_by_email s2 "a@x.com" = some w2 ∧
      w1.email = "A@x.com" ∧ w2.email = "a@x.com" ∧ w1 ≠ w2 :=
  c9_case_sensitive_reconciliation ⟨[], 0⟩ "A@x.com" "a@x.com" "pw123456" "g-1"
    true none none (by simp) (by decide) (by decide) (by decide)

end Chauffeur
